import Mathlib

set_option maxRecDepth 100000

/-!
Verification of the Commitlabs contracts (commitment_core, access_control,
attestation_engine, commitment_nft) against their natural-language
specification.

The Soroban contracts are shallowly embedded: contract storage becomes an
explicit state record per contract, `Address` values become `Nat`, Soroban
`String` becomes Lean `String`, `Map`/`Vec` storage becomes association
lists / lists, `u32`/`u64` become `Nat`, and `i128` becomes `Int` with
arithmetic wrapped to the `i128` range (`wrap128`) where the source performs
arithmetic.  Functions that can panic are modelled with `Option`/`Except`,
where `none`/`.error` is the panic/abort (a Soroban panic rolls back every
write of the call, so an aborted call leaves the pre-call state).
`require_auth()` calls are host-verified signatures and are modelled as
always granted; the authorization logic of the contracts themselves is
embedded faithfully.
-/

/-- Association-list lookup, modelling `Map::get` of the Soroban SDK. -/
def assocGet {κ α : Type} [DecidableEq κ] : List (κ × α) → κ → Option α
  | [], _ => none
  | (k', v) :: t, k => if k' = k then some v else assocGet t k

/-- Association-list update/insert, modelling `Map::set` of the Soroban SDK. -/
def assocSet {κ α : Type} [DecidableEq κ] : List (κ × α) → κ → α → List (κ × α)
  | [], k, v => [(k, v)]
  | (k', v') :: t, k, v => if k' = k then (k, v) :: t else (k', v') :: assocSet t k v

/-- Wrap an unbounded integer to the two's-complement `i128` range
`[-2^127, 2^127)`, the behaviour of overflowing `i128` arithmetic in a
release build. -/
def wrap128 (x : Int) : Int := (x + 2 ^ 127) % 2 ^ 128 - 2 ^ 127

/-! Embedding of contracts/access_control/src/lib.rs. -/

/-- Instance storage of the `AccessControl` module: `AccessControlKey::Admin`,
`AccessControlKey::Owner` and the `AccessControlKey::AuthorizedContract(addr)`
entries. -/
structure ACState where
  admin : Option Nat
  owner : Option Nat
  authorized_contracts : List (Nat × Bool)
deriving DecidableEq

namespace AccessControl

/-- Rust `AccessControl::get_admin`: `Err(NotInitialized)` (here `none`) when the
admin was never stored. -/
def get_admin (s : ACState) : Option Nat := s.admin

/-- Rust `AccessControl::is_admin`: `get_admin(e).map(|admin| admin == *address).unwrap_or(false)`. -/
def is_admin (s : ACState) (address : Nat) : Bool :=
  ((get_admin s).map (fun admin => decide (admin = address))).getD false

/-- Rust `AccessControl::is_authorized`: admin short-circuits, otherwise the
whitelist entry (default `false`). -/
def is_authorized (s : ACState) (contract_address : Nat) : Bool :=
  if is_admin s contract_address then true
  else (assocGet s.authorized_contracts contract_address).getD false

end AccessControl

/-! Embedding of contracts/commitment_core/src/lib.rs. -/

structure CommitmentRules where
  duration_days : Nat
  max_loss_percent : Nat
  commitment_type : String
  early_exit_penalty : Nat
  min_fee_threshold : Int
deriving DecidableEq

structure Commitment where
  commitment_id : String
  owner : Nat
  nft_token_id : Nat
  rules : CommitmentRules
  amount : Int
  asset_address : Nat
  created_at : Nat
  expires_at : Nat
  current_value : Int
  status : String
deriving DecidableEq

/-- Storage of `CommitmentCoreContract`: `DataKey::Admin`,
`DataKey::NftContract`, `DataKey::AuthorizedUpdaters` and the persistent
`DataKey::Commitment(id)` entries. -/
structure CoreState where
  admin : Option Nat
  nft_contract : Option Nat
  authorized_updaters : List (Nat × Bool)
  commitments : List (String × Commitment)
deriving DecidableEq

/-- Panics of `CommitmentCoreContract`, by panic site. -/
inductive CoreErr where
  | adminNotInitialized
  | notAuthorized
  | commitmentNotFound
  | nonActiveCommitment
deriving DecidableEq

namespace CommitmentCore

/-- Rust `is_authorized_updater`: `get_admin` panics (`none`) when uninitialized;
the admin is always authorized, otherwise the `AuthorizedUpdaters` map entry
(default `false`). -/
def is_authorized_updater (s : CoreState) (caller : Nat) : Option Bool :=
  match s.admin with
  | none => none
  | some admin =>
    if admin = caller then some true
    else some ((assocGet s.authorized_updaters caller).getD false)

/-- Rust `calculate_drawdown_percent`: `0` when `initial_value == 0`, otherwise
`((initial_value - current_value) * 100) / initial_value` in `i128`
arithmetic (`/` truncates toward zero; each operation wraps to `i128`). -/
def calculate_drawdown_percent (initial_value current_value : Int) : Int :=
  if initial_value = 0 then 0
  else wrap128 (Int.tdiv (wrap128 (wrap128 (initial_value - current_value) * 100)) initial_value)

/-- Rust `check_violation`: `false` when `initial_value == 0`, otherwise
`drawdown_percent > max_loss_percent` (strict). -/
def check_violation (initial_value current_value : Int) (max_loss_percent : Nat) : Bool :=
  if initial_value = 0 then false
  else decide (calculate_drawdown_percent initial_value current_value > (max_loss_percent : Int))

/-- Rust `create_commitment` as it stands in the source: every body line is a
`TODO` comment and it returns the literal `"commitment_id_placeholder"`,
writing nothing to storage (the returned state is unchanged). -/
def create_commitment (s : CoreState) (_owner : Nat) (_amount : Int)
    (_asset_address : Nat) (_rules : CommitmentRules) : String × CoreState :=
  ("commitment_id_placeholder", s)

/-- Rust `get_commitment`: `none` models the `expect("Commitment not found")` panic. -/
def get_commitment (s : CoreState) (commitment_id : String) : Option Commitment :=
  assocGet s.commitments commitment_id

/-- Rust `store_commitment`: persistent write keyed by the record's own id. -/
def store_commitment (s : CoreState) (commitment : Commitment) : CoreState :=
  { s with commitments := assocSet s.commitments commitment.commitment_id commitment }

/-- Rust `update_value`: authorization check, lookup, active-status check, then
write `new_value` and flip status to `"violated"` when `check_violation`
fires. Event publication is not modelled. -/
def update_value (s : CoreState) (caller : Nat) (commitment_id : String)
    (new_value : Int) : Except CoreErr CoreState :=
  match is_authorized_updater s caller with
  | none => .error .adminNotInitialized
  | some false => .error .notAuthorized
  | some true =>
    match assocGet s.commitments commitment_id with
    | none => .error .commitmentNotFound
    | some commitment =>
      if commitment.status ≠ "active" then .error .nonActiveCommitment
      else
        let c1 := { commitment with current_value := new_value }
        let is_violated :=
          check_violation commitment.amount new_value commitment.rules.max_loss_percent
        let c2 := if is_violated then { c1 with status := "violated" } else c1
        .ok (store_commitment s c2)

/-- Rust `check_violations` at ledger time `now`: loss violation, then
`now >= expires_at`, then stored `"violated"` status. -/
def check_violations (s : CoreState) (now : Nat) (commitment_id : String) :
    Except CoreErr Bool :=
  match assocGet s.commitments commitment_id with
  | none => .error .commitmentNotFound
  | some commitment =>
    if check_violation commitment.amount commitment.current_value
        commitment.rules.max_loss_percent then .ok true
    else if commitment.expires_at ≤ now then .ok true
    else if commitment.status = "violated" then .ok true
    else .ok false

end CommitmentCore

/-! Embedding of contracts/attestation_engine/src/lib.rs. -/

structure Attestation where
  commitment_id : String
  timestamp : Nat
  attestation_type : String
  data : String
  is_compliant : Bool
  verified_by : Nat
deriving DecidableEq

structure HealthMetrics where
  commitment_id : String
  current_value : Int
  initial_value : Int
  drawdown_percent : Int
  fees_generated : Int
  volatility_exposure : Int
  last_attestation : Nat
  compliance_score : Nat
deriving DecidableEq

/-- Storage of `AttestationEngineContract`: `ADMIN`, `COMMITMENT_CORE`,
`VERIFIERS` (a `Vec<Address>`), `COUNTER`, `ATTESTATIONS`
(`Map<String, Vec<Attestation>>`) and `HEALTH_METRICS`
(`Map<String, HealthMetrics>`). -/
structure EngState where
  admin : Option Nat
  commitment_core : Option Nat
  verifiers : List Nat
  counter : Nat
  attestations : List (String × List Attestation)
  health_metrics : List (String × HealthMetrics)
deriving DecidableEq

/-- Panics of `AttestationEngineContract`. -/
inductive EngErr where
  | unauthorizedVerifier
deriving DecidableEq

namespace AttestationEngine

/-- Rust `is_authorized_verifier`: linear scan of the `VERIFIERS` vector.  The
admin address is not consulted. -/
def is_authorized_verifier (s : EngState) (verifier : Nat) : Bool :=
  s.verifiers.contains verifier

/-- Rust `attest` as it stands in the source: the authorization check panics for
unauthorized verifiers; the `Attestation` record is built (timestamp
hardcoded to `12345`) but the `store_attestation` call is commented out and
health metrics are never touched, so the state is returned unchanged. -/
def attest (s : EngState) (commitment_id attestation_type data : String)
    (verified_by : Nat) : Except EngErr EngState :=
  if ¬ is_authorized_verifier s verified_by then .error .unauthorizedVerifier
  else
    let _attestation : Attestation :=
      { commitment_id := commitment_id, timestamp := 12345,
        attestation_type := attestation_type, data := data,
        is_compliant := true, verified_by := verified_by }
    .ok s

/-- Rust `get_attestations_internal`: the stored vector, or empty. -/
def get_attestations_internal (s : EngState) (commitment_id : String) : List Attestation :=
  (assocGet s.attestations commitment_id).getD []

/-- Rust `get_attestations`. -/
def get_attestations (s : EngState) (commitment_id : String) : List Attestation :=
  get_attestations_internal s commitment_id

/-- Rust `get_attestations_paginated`: `offset` and `limit` are `u32`, so
`offset + limit` wraps modulo `2^32`; `Vec::slice(offset..end)` traps when
`end < offset`, modelled as `none` (with `overflow-checks` enabled the
addition itself would trap at the same inputs). -/
def get_attestations_paginated (s : EngState) (commitment_id : String)
    (offset limit : Nat) : Option (List Attestation) :=
  let all := get_attestations_internal s commitment_id
  let len := all.length
  if len ≤ offset then some []
  else
    let endIdx := min ((offset + limit) % 2 ^ 32) len
    if endIdx < offset then none
    else some ((all.drop offset).take (endIdx - offset))

/-- Rust `get_health_metrics_internal`: stored metrics or the all-zero default. -/
def get_health_metrics_internal (s : EngState) (commitment_id : String) : HealthMetrics :=
  (assocGet s.health_metrics commitment_id).getD
    { commitment_id := commitment_id, current_value := 0, initial_value := 0,
      drawdown_percent := 0, fees_generated := 0, volatility_exposure := 0,
      last_attestation := 0, compliance_score := 0 }

/-- Rust `store_health_metrics`. -/
def store_health_metrics (s : EngState) (commitment_id : String)
    (metrics : HealthMetrics) : EngState :=
  { s with health_metrics := assocSet s.health_metrics commitment_id metrics }

/-- Public `get_health_metrics`. -/
def get_health_metrics (s : EngState) (commitment_id : String) : HealthMetrics :=
  get_health_metrics_internal s commitment_id

/-- Rust `record_fees` as it stands in the source: no caller parameter and no
authorization check of any kind; unconditionally adds `fee_amount` to
`fees_generated` (wrapping `i128` addition) and stamps `last_attestation`
with the hardcoded `12345`. -/
def record_fees (s : EngState) (commitment_id : String) (fee_amount : Int) : EngState :=
  let metrics := get_health_metrics_internal s commitment_id
  store_health_metrics s commitment_id
    { metrics with fees_generated := wrap128 (metrics.fees_generated + fee_amount),
                   last_attestation := 12345 }

/-- Rust `record_drawdown` as it stands in the source: no caller parameter and no
authorization check; unconditionally overwrites `drawdown_percent` and stamps
`last_attestation` with the hardcoded `12345`. -/
def record_drawdown (s : EngState) (commitment_id : String) (drawdown_percent : Int) : EngState :=
  let metrics := get_health_metrics_internal s commitment_id
  store_health_metrics s commitment_id
    { metrics with drawdown_percent := drawdown_percent, last_attestation := 12345 }

end AttestationEngine

/-! Embedding of contracts/commitment_nft/src/lib.rs. -/

structure CommitmentMetadata where
  commitment_id : String
  duration_days : Nat
  max_loss_percent : Nat
  commitment_type : String
  created_at : Nat
  expires_at : Nat
  initial_amount : Int
  asset_address : Nat
deriving DecidableEq

structure CommitmentNFT where
  owner : Nat
  token_id : Nat
  metadata : CommitmentMetadata
  is_active : Bool
  early_exit_penalty : Nat
deriving DecidableEq

/-- The richer of the two (duplicated) `ContractError` enums in the source. -/
inductive ContractError where
  | NotInitialized
  | AlreadyInitialized
  | TokenNotFound
  | InvalidTokenId
  | NotOwner
  | NotAuthorized
  | TransferNotAllowed
  | AlreadySettled
  | NotExpired
  | InvalidDuration
  | InvalidMaxLoss
  | InvalidCommitmentType
  | InvalidAmount
  | ReentrancyDetected
deriving DecidableEq

/-- Storage of `CommitmentNFTContract`: `DataKey::Admin`,
`DataKey::TokenCounter`, `DataKey::Token(id)` and `DataKey::OwnerTokens`. -/
structure NftState where
  admin : Option Nat
  token_counter : Nat
  tokens : List (Nat × CommitmentNFT)
  owner_tokens : List (Nat × List Nat)
deriving DecidableEq

namespace CommitmentNft

/-- Rust `get_nft`: `TokenNotFound` when the token does not exist. -/
def get_nft (s : NftState) (token_id : Nat) : Except ContractError CommitmentNFT :=
  match assocGet s.tokens token_id with
  | none => .error .TokenNotFound
  | some nft => .ok nft

/-- Rust `settle`: initialization check, lookup, owner `require_auth` (host
granted), then the already-settled no-op early return, else deactivate and
store.  A stray merge fragment after the event publication references
undefined variables and is unreachable on the inactive path; it is not
modelled. -/
def settle (s : NftState) (token_id : Nat) : Except ContractError NftState :=
  if s.admin = none then .error .NotInitialized
  else
    match get_nft s token_id with
    | .error e => .error e
    | .ok nft =>
      if nft.is_active = false then .ok s
      else .ok { s with tokens := assocSet s.tokens token_id { nft with is_active := false } }

end CommitmentNft

/-! Concrete states used by witnesses and counterexamples. -/

/-- An initialized commitment-core state with admin address 0, NFT contract
address 1 and no stored commitments. -/
def coreInitState : CoreState :=
  { admin := some 0, nft_contract := some 1, authorized_updaters := [], commitments := [] }

/-- An active commitment with principal 10000 and a 20 percent loss limit. -/
def c2Commitment : Commitment :=
  { commitment_id := "c2", owner := 2, nft_token_id := 1,
    rules := { duration_days := 365, max_loss_percent := 20, commitment_type := "balanced",
               early_exit_penalty := 10, min_fee_threshold := 1000 },
    amount := 10000, asset_address := 3, created_at := 1000,
    expires_at := 1000 + 365 * 86400, current_value := 10000, status := "active" }

/-- A core state holding only `c2Commitment`. -/
def c2State : CoreState :=
  { admin := some 0, nft_contract := some 1, authorized_updaters := [],
    commitments := [("c2", c2Commitment)] }

/-- An active commitment expiring at time 1000 + 30 * 86400. -/
def c4Commitment : Commitment :=
  { commitment_id := "c4", owner := 2, nft_token_id := 1,
    rules := { duration_days := 30, max_loss_percent := 10, commitment_type := "balanced",
               early_exit_penalty := 10, min_fee_threshold := 1000 },
    amount := 1000, asset_address := 3, created_at := 1000,
    expires_at := 1000 + 30 * 86400, current_value := 950, status := "active" }

/-- A core state holding only `c4Commitment`. -/
def c4State : CoreState :=
  { admin := some 0, nft_contract := some 1, authorized_updaters := [],
    commitments := [("c4", c4Commitment)] }

/-- An attestation-engine state with one authorized verifier (address 5) and
no stored attestations or health metrics. -/
def c5State : EngState :=
  { admin := some 0, commitment_core := some 1, verifiers := [5], counter := 0,
    attestations := [], health_metrics := [] }

/-- An initialized attestation-engine state with admin address 0 and an empty
verifier list. -/
def c6EngState : EngState :=
  { admin := some 0, commitment_core := some 1, verifiers := [], counter := 0,
    attestations := [], health_metrics := [] }

/-- An initialized access-control state with admin address 0 and an empty
whitelist. -/
def c6AcState : ACState :=
  { admin := some 0, owner := none, authorized_contracts := [] }

/-- An initialized attestation-engine state with no verifiers and no stored
health metrics. -/
def c7State : EngState :=
  { admin := some 0, commitment_core := some 1, verifiers := [], counter := 0,
    attestations := [], health_metrics := [] }

/-- A first stored attestation. -/
def att1 : Attestation :=
  { commitment_id := "c1", timestamp := 1, attestation_type := "health_check",
    data := "d1", is_compliant := true, verified_by := 5 }

/-- A second stored attestation. -/
def att2 : Attestation :=
  { commitment_id := "c1", timestamp := 2, attestation_type := "health_check",
    data := "d2", is_compliant := true, verified_by := 5 }

/-- An attestation-engine state with two stored attestations for "c1". -/
def c9State : EngState :=
  { admin := some 0, commitment_core := some 1, verifiers := [5], counter := 2,
    attestations := [("c1", [att1, att2])], health_metrics := [] }

/-- An already-settled (inactive) NFT. -/
def c10Nft : CommitmentNFT :=
  { owner := 2, token_id := 1,
    metadata := { commitment_id := "c1", duration_days := 30, max_loss_percent := 10,
                  commitment_type := "safe", created_at := 1000,
                  expires_at := 1000 + 30 * 86400, initial_amount := 1000,
                  asset_address := 3 },
    is_active := false, early_exit_penalty := 10 }

/-- An initialized NFT state holding only the settled token `c10Nft`. -/
def c10State : NftState :=
  { admin := some 0, token_counter := 1, tokens := [(1, c10Nft)],
    owner_tokens := [(2, [1])] }

/-! Helper lemmas. -/

/-- Looking up the key just written returns the written value. -/
theorem assocGet_assocSet_self {κ α : Type} [DecidableEq κ]
    (l : List (κ × α)) (k : κ) (v : α) : assocGet (assocSet l k v) k = some v := by
  induction l with
  | nil => simp [assocGet, assocSet]
  | cons h t ih =>
    obtain ⟨k', v'⟩ := h
    by_cases hk : k' = k
    · simp [assocSet, hk, assocGet]
    · simp [assocSet, hk, assocGet, ih]

/-- Values already inside the `i128` range are unchanged by `wrap128`. -/
theorem wrap128_eq_self {x : Int} (h1 : -(2 ^ 127) ≤ x) (h2 : x < 2 ^ 127) :
    wrap128 x = x := by
  unfold wrap128
  rw [Int.emod_eq_of_lt (by omega) (by omega)]
  omega

/-- Truncating division never increases the absolute value. -/
theorem tdiv_natAbs_le (a b : Int) : (Int.tdiv a b).natAbs ≤ a.natAbs := by
  rw [Int.natAbs_tdiv]
  exact Nat.div_le_self _ _

/-- In the overflow-free range, `calculate_drawdown_percent` is exactly the
truncating division of the scaled loss by the initial value. -/
theorem drawdown_formula (initial current : Int) (h0 : initial ≠ 0)
    (h1 : -(2 ^ 127) < (initial - current) * 100)
    (h2 : (initial - current) * 100 < 2 ^ 127) :
    CommitmentCore.calculate_drawdown_percent initial current =
      Int.tdiv ((initial - current) * 100) initial := by
  have hq := tdiv_natAbs_le ((initial - current) * 100) initial
  have e1 : wrap128 (initial - current) = initial - current :=
    wrap128_eq_self (by omega) (by omega)
  have e2 : wrap128 ((initial - current) * 100) = (initial - current) * 100 :=
    wrap128_eq_self (le_of_lt h1) h2
  have e3 : wrap128 (Int.tdiv ((initial - current) * 100) initial) =
      Int.tdiv ((initial - current) * 100) initial :=
    wrap128_eq_self (by omega) (by omega)
  unfold CommitmentCore.calculate_drawdown_percent
  rw [if_neg h0, e1, e2, e3]

/-! Claim theorems. -/

/-- Claim C1 (code bug): `create_commitment` is an unimplemented stub.  It
returns the placeholder id and stores nothing, so `get_commitment` on the
returned id finds no commitment (it panics with "Commitment not found")
instead of returning an Active commitment as the specification requires. -/
theorem c1_create_commitment_stub :
    (∀ (s : CoreState) (owner : Nat) (amount : Int) (asset_address : Nat)
        (rules : CommitmentRules),
      CommitmentCore.create_commitment s owner amount asset_address rules =
        ("commitment_id_placeholder", s)) ∧
    CommitmentCore.get_commitment coreInitState "commitment_id_placeholder" = none :=
  ⟨fun _ _ _ _ _ => rfl, rfl⟩

/-- Claim C2: an authorized `update_value` whose new value pushes the drawdown
strictly past `max_loss_percent` stores the new value with status
`"violated"`, and from then on every `update_value` on that commitment fails —
for authorized callers with the non-active-commitment rejection — leaving the
stored record (value and status) unchanged. -/
theorem c2_update_value_violation_locks
    (s : CoreState) (caller : Nat) (commitment_id : String) (new_value : Int)
    (c : Commitment)
    (hauth : CommitmentCore.is_authorized_updater s caller = some true)
    (hget : assocGet s.commitments commitment_id = some c)
    (hid : c.commitment_id = commitment_id)
    (hactive : c.status = "active")
    (hdraw : (c.rules.max_loss_percent : Int) <
      CommitmentCore.calculate_drawdown_percent c.amount new_value) :
    CommitmentCore.update_value s caller commitment_id new_value =
      .ok (CommitmentCore.store_commitment s
        { c with current_value := new_value, status := "violated" }) ∧
    CommitmentCore.get_commitment
        (CommitmentCore.store_commitment s
          { c with current_value := new_value, status := "violated" }) commitment_id =
      some { c with current_value := new_value, status := "violated" } ∧
    (∀ (caller2 : Nat) (v2 : Int) (t : CoreState),
      CommitmentCore.update_value
        (CommitmentCore.store_commitment s
          { c with current_value := new_value, status := "violated" })
        caller2 commitment_id v2 ≠ .ok t) ∧
    (∀ (caller2 : Nat) (v2 : Int),
      CommitmentCore.is_authorized_updater s caller2 = some true →
      CommitmentCore.update_value
        (CommitmentCore.store_commitment s
          { c with current_value := new_value, status := "violated" })
        caller2 commitment_id v2 = .error .nonActiveCommitment) := by
  have hamt : c.amount ≠ 0 := by
    intro h0
    rw [h0] at hdraw
    simp [CommitmentCore.calculate_drawdown_percent] at hdraw
    omega
  have hviol : CommitmentCore.check_violation c.amount new_value
      c.rules.max_loss_percent = true := by
    simp only [CommitmentCore.check_violation, if_neg hamt, decide_eq_true_eq]
    exact hdraw
  have hgetnew : CommitmentCore.get_commitment
      (CommitmentCore.store_commitment s
        { c with current_value := new_value, status := "violated" }) commitment_id =
      some { c with current_value := new_value, status := "violated" } := by
    simp only [CommitmentCore.get_commitment, CommitmentCore.store_commitment]
    rw [show ({ c with current_value := new_value, status := "violated" } :
        Commitment).commitment_id = commitment_id from hid]
    exact assocGet_assocSet_self _ _ _
  have hinactive : ∀ (caller2 : Nat) (v2 : Int),
      CommitmentCore.is_authorized_updater s caller2 = some true →
      CommitmentCore.update_value
        (CommitmentCore.store_commitment s
          { c with current_value := new_value, status := "violated" })
        caller2 commitment_id v2 = .error .nonActiveCommitment := by
    intro caller2 v2 hu
    have hu' : CommitmentCore.is_authorized_updater
        (CommitmentCore.store_commitment s
          { c with current_value := new_value, status := "violated" }) caller2 =
        some true := hu
    have hg' : assocGet (CommitmentCore.store_commitment s
        { c with current_value := new_value, status := "violated" }).commitments
        commitment_id =
        some { c with current_value := new_value, status := "violated" } := hgetnew
    simp only [CommitmentCore.update_value, hu', hg']
    simp
  refine ⟨?_, hgetnew, ?_, hinactive⟩
  · simp only [CommitmentCore.update_value, hauth, hget, hactive]
    simp [hviol]
  · intro caller2 v2 t
    rcases hu : CommitmentCore.is_authorized_updater s caller2 with _ | b
    · have hu' : CommitmentCore.is_authorized_updater
          (CommitmentCore.store_commitment s
            { c with current_value := new_value, status := "violated" }) caller2 =
          none := hu
      simp [CommitmentCore.update_value, hu']
    · cases b
      · have hu' : CommitmentCore.is_authorized_updater
            (CommitmentCore.store_commitment s
              { c with current_value := new_value, status := "violated" }) caller2 =
            some false := hu
        simp [CommitmentCore.update_value, hu']
      · rw [hinactive caller2 v2 hu]
        simp

/-- Witness for C2: on the concrete state `c2State`, the admin updates the
value to 7500 (a 25 percent drawdown against the 20 percent limit); the
commitment is stored as violated and a further admin update is rejected. -/
theorem c2_update_value_violation_locks_witness :
    CommitmentCore.update_value c2State 0 "c2" 7500 =
      .ok (CommitmentCore.store_commitment c2State
        { c2Commitment with current_value := 7500, status := "violated" }) ∧
    CommitmentCore.get_commitment
        (CommitmentCore.store_commitment c2State
          { c2Commitment with current_value := 7500, status := "violated" }) "c2" =
      some { c2Commitment with current_value := 7500, status := "violated" } ∧
    CommitmentCore.update_value
        (CommitmentCore.store_commitment c2State
          { c2Commitment with current_value := 7500, status := "violated" })
        0 "c2" 8000 = .error .nonActiveCommitment := by
  have h := c2_update_value_violation_locks c2State 0 "c2" 7500 c2Commitment
    (by decide) (by decide) rfl rfl (by decide)
  exact ⟨h.1, h.2.1, h.2.2.2 0 8000 (by decide)⟩

/-- Claim C3 counterexample: the claim asserts that a current value of 7999
against initial 10000 with limit 20 is a violation; the code computes the
drawdown with truncating integer division, (2001 * 100) / 10000 = 20, and the
strict comparison 20 > 20 fails, so there is no violation. -/
theorem c3_check_violation_counterexample :
    CommitmentCore.check_violation 10000 7999 20 = false := by decide

/-- Claim C3 (amended): the loss-violation predicate returns false when
initial is 0 and otherwise is exactly the strict comparison of the truncated
drawdown percent against the limit; a drawdown exactly at the limit is
compliant — initial 10000, current 8000, limit 20 is not a violation, current
7999 (truncated drawdown still 20) is also not, and current 7900 (drawdown
21) is. -/
theorem c3_check_violation_strict (initial current : Int) (max_loss_percent : Nat) :
    (initial = 0 → CommitmentCore.check_violation initial current max_loss_percent = false) ∧
    (initial ≠ 0 →
      (CommitmentCore.check_violation initial current max_loss_percent = true ↔
        (max_loss_percent : Int) <
          CommitmentCore.calculate_drawdown_percent initial current)) ∧
    CommitmentCore.check_violation 10000 8000 20 = false ∧
    CommitmentCore.check_violation 10000 7999 20 = false ∧
    CommitmentCore.check_violation 10000 7900 20 = true := by
  refine ⟨fun h0 => by simp [CommitmentCore.check_violation, h0],
    fun h0 => ?_, by decide, by decide, by decide⟩
  simp [CommitmentCore.check_violation, h0]

/-- Witness for C3: the amended predicate characterization at concrete inputs. -/
theorem c3_check_violation_strict_witness :
    CommitmentCore.check_violation 0 5 20 = false ∧
    (CommitmentCore.check_violation 10000 7000 20 = true ↔
      ((20 : Nat) : Int) < CommitmentCore.calculate_drawdown_percent 10000 7000) :=
  ⟨(c3_check_violation_strict 0 5 20).1 rfl,
   (c3_check_violation_strict 10000 7000 20).2.1 (by decide)⟩

/-- Claim C4: `check_violations` recomputes violations from stored state and
ledger time; whenever the current time has reached `expires_at` (inclusive
boundary) it returns true, regardless of the loss check and of whether any
`update_value` ever ran. -/
theorem c4_check_violations_duration_inclusive
    (s : CoreState) (now : Nat) (commitment_id : String) (c : Commitment)
    (hget : assocGet s.commitments commitment_id = some c)
    (hexp : c.expires_at ≤ now) :
    CommitmentCore.check_violations s now commitment_id = .ok true := by
  simp only [CommitmentCore.check_violations, hget]
  by_cases hv : CommitmentCore.check_violation c.amount c.current_value
      c.rules.max_loss_percent
  · simp [hv]
  · simp [hv, hexp]

/-- Witness for C4: a stored commitment checked exactly at its expiry
timestamp reports a violation with no prior value update. -/
theorem c4_check_violations_duration_inclusive_witness :
    CommitmentCore.check_violations c4State (1000 + 30 * 86400) "c4" = .ok true :=
  c4_check_violations_duration_inclusive c4State (1000 + 30 * 86400) "c4"
    c4Commitment (by decide) (le_refl _)

/-- Claim C5 (code bug): `attest` does reject unauthorized verifiers, but for
authorized verifiers it returns the state unchanged — the `store_attestation`
call is commented out and health metrics are never written — so in the
concrete state a successful `attest` leaves `get_attestations` empty and
`last_attestation` at 0 instead of appending a record and stamping the time. -/
theorem c5_attest_stores_nothing :
    (∀ (s : EngState) (commitment_id attestation_type data : String)
        (verified_by : Nat),
      AttestationEngine.is_authorized_verifier s verified_by = false →
      AttestationEngine.attest s commitment_id attestation_type data verified_by =
        .error .unauthorizedVerifier) ∧
    (∀ (s : EngState) (commitment_id attestation_type data : String)
        (verified_by : Nat),
      AttestationEngine.is_authorized_verifier s verified_by = true →
      AttestationEngine.attest s commitment_id attestation_type data verified_by =
        .ok s) ∧
    AttestationEngine.attest c5State "c1" "health_check" "d" 5 = .ok c5State ∧
    AttestationEngine.get_attestations c5State "c1" = [] ∧
    (AttestationEngine.get_health_metrics c5State "c1").last_attestation = 0 := by
  refine ⟨?_, ?_, rfl, rfl, rfl⟩
  · intro s cid t d v h
    simp [AttestationEngine.attest, h]
  · intro s cid t d v h
    simp [AttestationEngine.attest, h]

/-- Witness for C5: a non-verifier (address 7) is rejected and the authorized
verifier (address 5) gets a success that changes nothing. -/
theorem c5_attest_stores_nothing_witness :
    AttestationEngine.attest c5State "c1" "x" "y" 7 = .error .unauthorizedVerifier ∧
    AttestationEngine.attest c5State "c1" "x" "y" 5 = .ok c5State :=
  ⟨c5_attest_stores_nothing.1 c5State "c1" "x" "y" 7 (by decide),
   c5_attest_stores_nothing.2.1 c5State "c1" "x" "y" 5 (by decide)⟩

/-- Claim C6 (code bug): the access-control whitelist check and the
commitment-core updater check both short-circuit for the admin, but the
attestation-engine verifier check only scans the `VERIFIERS` vector, so in an
initialized engine state with an empty verifier list the admin (address 0)
fails the check, contradicting the admin-always-authorized invariant (and the
engine's own test asserting it). -/
theorem c6_admin_implicit_authorization :
    (∀ (s : ACState) (a : Nat), s.admin = some a →
      AccessControl.is_authorized s a = true) ∧
    (∀ (s : CoreState) (a : Nat), s.admin = some a →
      CommitmentCore.is_authorized_updater s a = some true) ∧
    c6EngState.admin = some 0 ∧
    AttestationEngine.is_authorized_verifier c6EngState 0 = false := by
  refine ⟨?_, ?_, rfl, rfl⟩
  · intro s a h
    simp [AccessControl.is_authorized, AccessControl.is_admin, AccessControl.get_admin, h]
  · intro s a h
    simp [CommitmentCore.is_authorized_updater, h]

/-- Witness for C6: the admin passes the access-control and commitment-core
checks on concrete initialized states. -/
theorem c6_admin_implicit_authorization_witness :
    AccessControl.is_authorized c6AcState 0 = true ∧
    CommitmentCore.is_authorized_updater coreInitState 0 = some true :=
  ⟨c6_admin_implicit_authorization.1 c6AcState 0 rfl,
   c6_admin_implicit_authorization.2.1 coreInitState 0 rfl⟩

/-- Claim C7 (code bug): `record_fees` and `record_drawdown` take no caller
and perform no authorization check at all; for every state — including one
whose whitelist is empty, so no caller could be authorized — they
unconditionally write the health metrics, contradicting the
authorization-before-any-write requirement (and the engine's own
unauthorized-caller tests). -/
theorem c7_record_fees_drawdown_ungated :
    (∀ (s : EngState) (commitment_id : String) (fee_amount : Int),
      (AttestationEngine.get_health_metrics
          (AttestationEngine.record_fees s commitment_id fee_amount)
          commitment_id).fees_generated =
        wrap128 ((AttestationEngine.get_health_metrics s commitment_id).fees_generated
          + fee_amount) ∧
      (AttestationEngine.get_health_metrics
          (AttestationEngine.record_fees s commitment_id fee_amount)
          commitment_id).last_attestation = 12345) ∧
    (∀ (s : EngState) (commitment_id : String) (drawdown_percent : Int),
      (AttestationEngine.get_health_metrics
          (AttestationEngine.record_drawdown s commitment_id drawdown_percent)
          commitment_id).drawdown_percent = drawdown_percent ∧
      (AttestationEngine.get_health_metrics
          (AttestationEngine.record_drawdown s commitment_id drawdown_percent)
          commitment_id).last_attestation = 12345) ∧
    (AttestationEngine.get_health_metrics
        (AttestationEngine.record_fees c7State "c1" 100) "c1").fees_generated = 100 := by
  refine ⟨?_, ?_, by decide⟩
  · intro s cid fee
    simp [AttestationEngine.record_fees, AttestationEngine.get_health_metrics,
      AttestationEngine.get_health_metrics_internal,
      AttestationEngine.store_health_metrics, assocGet_assocSet_self]
  · intro s cid p
    simp [AttestationEngine.record_drawdown, AttestationEngine.get_health_metrics,
      AttestationEngine.get_health_metrics_internal,
      AttestationEngine.store_health_metrics, assocGet_assocSet_self]

/-- Claim C8 counterexample: with initial 1000 and current 1001 the current
value exceeds the initial value but the computed percent is 0, not negative —
(-1 * 100) / 1000 truncates toward zero. -/
theorem c8_drawdown_counterexample :
    (1000 : Int) < 1001 ∧ CommitmentCore.calculate_drawdown_percent 1000 1001 = 0 := by
  decide

/-- Claim C8 (amended): `calculate_drawdown_percent` returns 0 when initial is
0; whenever the intermediate product (initial - current) * 100 fits in i128
it returns that product divided by initial, truncating toward zero; and for
positive initial, a current value above initial gives a non-positive result —
strictly negative once the gain reaches one percent of initial — gains being
truncated toward zero, never clamped. -/
theorem c8_drawdown_spec :
    (∀ current : Int, CommitmentCore.calculate_drawdown_percent 0 current = 0) ∧
    (∀ initial current : Int, initial ≠ 0 →
      -(2 ^ 127) < (initial - current) * 100 → (initial - current) * 100 < 2 ^ 127 →
      CommitmentCore.calculate_drawdown_percent initial current =
        Int.tdiv ((initial - current) * 100) initial) ∧
    (∀ initial current : Int, 0 < initial → initial < current →
      (current - initial) * 100 < 2 ^ 127 →
      CommitmentCore.calculate_drawdown_percent initial current ≤ 0 ∧
      (initial ≤ (current - initial) * 100 →
        CommitmentCore.calculate_drawdown_percent initial current < 0)) := by
  refine ⟨fun current => by simp [CommitmentCore.calculate_drawdown_percent],
    drawdown_formula, ?_⟩
  intro initial current hi hic hb
  have h1 : -(2 ^ 127) < (initial - current) * 100 := by omega
  have h2 : (initial - current) * 100 < 2 ^ 127 := by omega
  rw [drawdown_formula initial current (by omega) h1 h2]
  have hneg : (initial - current) * 100 = -((current - initial) * 100) := by ring
  rw [hneg, Int.neg_tdiv]
  have hnn : 0 ≤ Int.tdiv ((current - initial) * 100) initial :=
    Int.tdiv_nonneg (by omega) (by omega)
  constructor
  · omega
  · intro hge
    have htd : Int.tdiv ((current - initial) * 100) initial =
        ((current - initial) * 100) / initial := Int.tdiv_eq_ediv (by omega) (by omega)
    have h1le : (1 : Int) ≤ ((current - initial) * 100) / initial := by
      rw [Int.le_ediv_iff_mul_le hi]
      omega
    have key : (1 : Int) ≤ Int.tdiv ((current - initial) * 100) initial := by
      rw [htd]; exact h1le
    omega

/-- Witness for C8: the amended characterization at concrete inputs — zero
initial, an in-range loss, and a strict gain of 100 percent. -/
theorem c8_drawdown_spec_witness :
    CommitmentCore.calculate_drawdown_percent 0 5 = 0 ∧
    CommitmentCore.calculate_drawdown_percent 10 7 = Int.tdiv ((10 - 7) * 100) 10 ∧
    CommitmentCore.calculate_drawdown_percent 100 200 < 0 :=
  ⟨c8_drawdown_spec.1 5,
   c8_drawdown_spec.2.1 10 7 (by decide) (by decide) (by decide),
   (c8_drawdown_spec.2.2 100 200 (by decide) (by decide) (by decide)).2 (by decide)⟩

/-- Claim C9 counterexample: with two stored attestations, offset 1 and limit
u32::MAX, the u32 addition offset + limit wraps to 0, so the code calls
Vec::slice(1..0) and traps (with overflow checks the addition itself traps)
instead of returning the min(limit, count - offset) = 1 remaining record. -/
theorem c9_paginated_overflow_counterexample :
    AttestationEngine.get_attestations_paginated c9State "c1" 1 (2 ^ 32 - 1) = none := by
  decide

/-- Claim C9 (amended): `get_attestations_paginated` returns the empty
sequence (not a failure) whenever offset is at least the total count — for
every limit, since that check precedes the addition; otherwise, provided
offset + limit does not overflow u32, it never errors and returns exactly
min(limit, count - offset) attestations — the slice of the stored sequence
from offset in original insertion order; and whenever offset < count and the
u32 addition offset + limit overflows, the call traps. -/
theorem c9_paginated_spec (s : EngState) (commitment_id : String)
    (offset limit : Nat) :
    ((AttestationEngine.get_attestations_internal s commitment_id).length ≤ offset →
      AttestationEngine.get_attestations_paginated s commitment_id offset limit =
        some []) ∧
    (offset < (AttestationEngine.get_attestations_internal s commitment_id).length →
      offset + limit < 2 ^ 32 →
      AttestationEngine.get_attestations_paginated s commitment_id offset limit =
        some (((AttestationEngine.get_attestations_internal s commitment_id).drop
          offset).take limit) ∧
      (((AttestationEngine.get_attestations_internal s commitment_id).drop
          offset).take limit).length =
        min limit
          ((AttestationEngine.get_attestations_internal s commitment_id).length
            - offset)) ∧
    (offset < (AttestationEngine.get_attestations_internal s commitment_id).length →
      offset < 2 ^ 32 → limit < 2 ^ 32 → 2 ^ 32 ≤ offset + limit →
      AttestationEngine.get_attestations_paginated s commitment_id offset limit =
        none) := by
  refine ⟨?_, ?_, ?_⟩
  · intro hle
    simp only [AttestationEngine.get_attestations_paginated]
    rw [if_pos hle]
  · intro hlt hno
    simp only [AttestationEngine.get_attestations_paginated]
    rw [if_neg (by omega), Nat.mod_eq_of_lt hno]
    rcases le_or_lt (offset + limit)
        (AttestationEngine.get_attestations_internal s commitment_id).length
        with hle2 | hgt
    · rw [min_eq_left hle2, if_neg (by omega)]
      constructor
      · have harg : offset + limit - offset = limit := by omega
        rw [harg]
      · rw [List.length_take, List.length_drop]
    · rw [min_eq_right (le_of_lt hgt), if_neg (by omega)]
      constructor
      · have hlen : ((AttestationEngine.get_attestations_internal s
            commitment_id).drop offset).length =
            (AttestationEngine.get_attestations_internal s commitment_id).length
              - offset := List.length_drop _ _
        rw [show (AttestationEngine.get_attestations_internal s
            commitment_id).length - offset =
            ((AttestationEngine.get_attestations_internal s
              commitment_id).drop offset).length from hlen.symm]
        rw [List.take_length, List.take_of_length_le (by rw [hlen]; omega)]
      · rw [List.length_take, List.length_drop]
  · intro hlt hoff hlim hovf
    simp only [AttestationEngine.get_attestations_paginated]
    rw [if_neg (by omega)]
    have hmod : (offset + limit) % 2 ^ 32 = offset + limit - 2 ^ 32 := by omega
    rw [hmod, min_eq_left (by omega), if_pos (by omega)]

/-- Witness for C9: on the concrete two-attestation state, an out-of-range
offset returns empty even with limit u32::MAX, offset 1 with limit 5 returns
exactly the one remaining attestation, and offset 1 with limit u32::MAX
traps. -/
theorem c9_paginated_spec_witness :
    AttestationEngine.get_attestations_paginated c9State "c1" 5 (2 ^ 32 - 1) =
      some [] ∧
    AttestationEngine.get_attestations_paginated c9State "c1" 1 5 = some [att2] ∧
    AttestationEngine.get_attestations_paginated c9State "c1" 1 (2 ^ 32 - 1) =
      none := by
  refine ⟨(c9_paginated_spec c9State "c1" 5 (2 ^ 32 - 1)).1 (by decide), ?_,
    (c9_paginated_spec c9State "c1" 1 (2 ^ 32 - 1)).2.2 (by decide) (by decide)
      (by decide) (by decide)⟩
  have h := (c9_paginated_spec c9State "c1" 1 5).2.1 (by decide) (by decide)
  exact h.1.trans (by decide)

/-- Claim C10: `settle` on an existing token whose `is_active` flag is already
false is a no-op that returns Ok and leaves the whole token store unchanged,
rather than an AlreadySettled error. -/
theorem c10_settle_idempotent (s : NftState) (token_id : Nat)
    (nft : CommitmentNFT) (hinit : s.admin ≠ none)
    (hget : assocGet s.tokens token_id = some nft)
    (hsettled : nft.is_active = false) :
    CommitmentNft.settle s token_id = .ok s := by
  simp [CommitmentNft.settle, CommitmentNft.get_nft, hinit, hget, hsettled]

/-- Witness for C10: settling the already-settled token 1 in the concrete
state returns Ok with the state unchanged. -/
theorem c10_settle_idempotent_witness :
    CommitmentNft.settle c10State 1 = .ok c10State :=
  c10_settle_idempotent c10State 1 c10Nft (by decide) (by decide) rfl
